import Mathlib

/-!
Verification of the slurm-job-tunnel repository against its specification.

Python strings are embedded as `List Char`; the relevant Python string
operations (`in`, `strip`, `split`, `int`, f-string formatting) are given
executable Lean counterparts, and the lifecycle functions of
`src/job_tunnel.py` and `src/slurm_job_tunnel/run_tunnel.py` are translated
into pure functions over explicit inputs (remote command results are passed
in as data; remote side effects are returned as action lists; Python
exceptions become `Except` errors).
-/

/-- ASCII whitespace as recognised by Python's default `str.strip()` /
`str.split()` (the job-tunnel code only ever meets ASCII output). -/
def isWs (c : Char) : Bool :=
  c = ' ' || c = '\t' || c = '\n' || c = '\r' || c = '\x0b' || c = '\x0c'

/-- `matchesAt needle hay` is true when `needle` occurs at the very start of
`hay`; the building block of Python's substring test. -/
def matchesAt : List Char → List Char → Bool
  | [], _ => true
  | _ :: _, [] => false
  | n :: ns, c :: cs => n == c && matchesAt ns cs

/-- Python's substring containment test `needle in hay`. -/
def hasSub (needle : List Char) : List Char → Bool
  | [] => needle.isEmpty
  | c :: cs => matchesAt needle (c :: cs) || hasSub needle cs

/-- Python `str.strip()` (with the ASCII whitespace of `isWs`). -/
def pyStrip (s : List Char) : List Char :=
  ((s.dropWhile isWs).reverse.dropWhile isWs).reverse

/-- Accumulator loop of Python's no-argument `str.split()`: splits on runs of
whitespace and drops empty pieces.  `acc` holds the current token reversed. -/
def wsSplitGo : List Char → List Char → List (List Char)
  | [], acc => if acc.isEmpty then [] else [acc.reverse]
  | c :: rest, acc =>
    if isWs c then
      if acc.isEmpty then wsSplitGo rest [] else acc.reverse :: wsSplitGo rest []
    else wsSplitGo rest (c :: acc)

/-- Python `str.split()` with no separator argument. -/
def pyWsSplit (s : List Char) : List (List Char) :=
  wsSplitGo s []

/-- Fuel-driven loop of Python's `str.split(sep)` for a non-empty `sep`;
the fuel (one unit per input character, plus one) is always sufficient, so
the fuel-exhaustion branch is unreachable. -/
def pySplitGo (sep : List Char) : Nat → List Char → List Char → List (List Char)
  | 0, s, acc => [acc ++ s]
  | _ + 1, [], acc => [acc]
  | fuel + 1, c :: rest, acc =>
    if matchesAt sep (c :: rest) then
      acc :: pySplitGo sep fuel (List.drop (sep.length - 1) rest) []
    else
      pySplitGo sep fuel rest (acc ++ [c])

/-- Python `s.split(sep)` for the non-empty separators used by the sources
("=" and "at: "). -/
def pySplit (sep s : List Char) : List (List Char) :=
  pySplitGo sep (s.length + 1) s []

/-- Numeric value of a digit string (most significant first). -/
def natOfDigits (ds : List Char) : Nat :=
  ds.foldl (fun n c => n * 10 + (c.toNat - 48)) 0

/-- `some` value of a non-empty all-digit string, `none` otherwise. -/
def digitsVal? (ds : List Char) : Option Nat :=
  if !ds.isEmpty && ds.all Char.isDigit then some (natOfDigits ds) else none

/-- Python `int(s)` on the strings this program feeds it: surrounding
whitespace is stripped, an optional sign is allowed, and the rest must be a
non-empty digit string (digit-group underscores and non-ASCII digits, which
never occur here, are not modelled). -/
def pyInt? (s : List Char) : Option Int :=
  match pyStrip s with
  | [] => none
  | c :: rest =>
    if c = '-' then (digitsVal? rest).map (fun n => -(n : Int))
    else if c = '+' then (digitsVal? rest).map (fun n => (n : Int))
    else (digitsVal? (c :: rest)).map (fun n => (n : Int))

/-- The Python exceptions raised by the translated code. -/
inductive PyErr
  | valueError (msg : List Char)
  | attributeError (msg : List Char)
  | indexError
  | stopIteration
  | timeoutError (msg : List Char)
  deriving DecidableEq

/-- The three sentinel markers watched by `get_tunnel_info`. -/
def PORTmark : List Char := "PORT=".data

/-- See `PORTmark`. -/
def NODEmark : List Char := "NODE=".data

/-- See `PORTmark`. -/
def CLOSEmark : List Char := "This tunnel will close at: ".data

/-- One line of the inner `for line in output.splitlines()` body of
`watch_output_for_text`: the line is appended to `found_texts` once per
watched text it contains (`for watch_text in watch_texts: if watch_text in
line: found_texts.append(line)`). -/
def found_texts_step (watch_texts : List (List Char)) (line : List Char)
    (found : List (List Char)) : List (List Char) :=
  found ++ (watch_texts.filter (fun w => hasSub w line)).map (fun _ => line)

/-- One whole-file scan of `watch_output_for_text` (`src/job_tunnel.py`
lines 185-199, `src/slurm_job_tunnel/run_tunnel.py` lines 108-118): lines are
scanned in order and the function returns `found_texts` as soon as
`len(found_texts) == len(watch_texts)`; `none` means the scan fell through to
`time.sleep(wait_time)`. -/
def scanLines (watch_texts : List (List Char)) :
    List (List Char) → List (List Char) → Option (List (List Char))
  | [], _ => none
  | line :: rest, found =>
    let found' := found_texts_step watch_texts line found
    if found'.length = watch_texts.length then some found'
    else scanLines watch_texts rest found'

/-- Single quotes around a string, as Python `repr` prints the marker strings
(none of them contains a quote, so no escaping arises). -/
def pyQuote (w : List Char) : List Char := '\'' :: (w ++ ['\''])

/-- Join with a separator (used for Python's list `repr`). -/
def joinSep (sep : List Char) : List (List Char) → List Char
  | [] => []
  | [x] => x
  | x :: y :: xs => x ++ (sep ++ joinSep sep (y :: xs))

/-- Python `repr` of a list of strings, as interpolated by the f-string
`f"Timed out waiting for {watch_texts}"`. -/
def pyListRepr (ws : List (List Char)) : List Char :=
  '[' :: (joinSep ", ".data (ws.map pyQuote) ++ [']'])

/-- The message of the `TimeoutError` raised at
`src/slurm_job_tunnel/run_tunnel.py` line 119. -/
def timeoutMsg (ws : List (List Char)) : List Char :=
  "Timed out waiting for ".data ++ pyListRepr ws

/-- `JobTunnel.watch_output_for_text` of `src/slurm_job_tunnel/run_tunnel.py`
lines 105-119.  `polls` is the sequence of remote file contents (already
split into lines) fetched by `cat` on successive loop iterations before the
`timeout` deadline elapses; exhausting `polls` is the deadline elapsing, at
which point the code raises `TimeoutError(f"Timed out waiting for
{watch_texts}")`.  (The `src/job_tunnel.py` variant, lines 182-199, is the
same loop without the deadline.) -/
def watch_output_for_text (watch_texts : List (List Char)) :
    List (List (List Char)) → Except (List Char) (List (List Char))
  | [] => .error (timeoutMsg watch_texts)
  | p :: ps =>
    match scanLines watch_texts p [] with
    | some found => .ok found
    | none => watch_output_for_text watch_texts ps

/-- `JobTunnel.submit_slurm_job` of `src/job_tunnel.py` lines 141-157.
`returncode`, `stdout` and `stderr` are the fields of the
`subprocess.CompletedProcess` returned by the remote `sbatch` invocation.
On a non-zero exit code the code raises
`ValueError(f"Failed to submit SLURM job: {result.stderr}")`; otherwise the
job id is `int(result.stdout.strip().split()[-1])` — `[-1]` on an empty list
raises `IndexError`, and a non-integer token makes `int` raise `ValueError`.
No "submitted job" pattern is ever checked.  (The
`src/slurm_job_tunnel/run_tunnel.py` variant, lines 86-92, has the same
id extraction and delegates exit-code handling to the external
`slurm-job-util` package.) -/
def submit_slurm_job (returncode : Int) (stdout stderr : List Char) :
    Except PyErr Int :=
  if returncode ≠ 0 then
    .error (.valueError ("Failed to submit SLURM job: ".data ++ stderr))
  else
    match (pyWsSplit (pyStrip stdout)).getLast? with
    | none => .error .indexError
    | some tok =>
      match pyInt? tok with
      | none => .error (.valueError ("invalid literal for int: ".data ++ tok))
      | some n => .ok n

/-- `JobTunnel.job_status` of `src/job_tunnel.py` lines 164-176: the stripped
stdout of `squeue -j <id> -h -o %T` is returned verbatim — no enum mapping,
no error on empty output. -/
def job_status (squeue_stdout : List Char) : List Char :=
  pyStrip squeue_stdout

/-- `JobTunnel.job_running` of `src/job_tunnel.py` lines 178-180:
`self.job_status == "RUNNING"`. -/
def job_running (status : List Char) : Bool :=
  status == "RUNNING".data

/-- Remote/local side effects performed by the teardown paths. -/
inductive Act
  | scancel (job_id : Nat)
  | killCodeProcesses
  | removeEntry (host : List Char)
  | localTunnelCleanup
  | exitProc
  deriving DecidableEq

/-- `JobTunnel.cancel_slurm_job` of `src/job_tunnel.py` lines 159-162:
`scancel` is issued iff the (raw string) job status is one of `PENDING`,
`RUNNING`, `STOPPED`. -/
def jt_cancel_slurm_job (job_id : Nat) (status : List Char) : List Act :=
  if status = "PENDING".data ∨ status = "RUNNING".data ∨ status = "STOPPED".data
  then [Act.scancel job_id] else []

/-- `cleanup` of `src/job_tunnel.py` lines 275-295, as the ordered list of
side effects it performs.  Guards mirror Python truthiness: `job_tunnel` and
`ssh_config` may be `None`; an empty `prev_code_pids` list is falsy like
`None`; `tunnel_entry` contributes its `host` field.  When a job handle is
present, its cancellation consults the current scheduler status (`job_id`,
`status`). -/
def jt_cleanup (job_tunnel : Option (Nat × List Char))
    (prev_code_pids : List Nat) (ssh_config : Bool)
    (tunnel_entry : Option (List Char)) (ex : Bool) : List Act :=
  (match job_tunnel with
   | none => []
   | some (jid, st) => jt_cancel_slurm_job jid st) ++
  (if !prev_code_pids.isEmpty then [Act.killCodeProcesses] else []) ++
  (match ssh_config, tunnel_entry with
   | true, some h => [Act.removeEntry h]
   | _, _ => []) ++
  (if ex then [Act.exitProc] else [])

/-- The scheduler job states named by the specification's enum. -/
inductive JobState
  | PENDING
  | RUNNING
  | STOPPED
  | COMPLETED
  | UNKNOWN
  deriving DecidableEq

/-- Modelled from the spec: `SlurmJob.cancel` of the external
`slurm-job-util` dependency (not part of this repository's sources), as
specified in section 4.1 — "if status() is in {PENDING, RUNNING, STOPPED},
executes a cancellation command; otherwise no-op", never raising. -/
def SlurmJob_cancel (job_id : Nat) (st : JobState) : List Act :=
  if st = .PENDING ∨ st = .RUNNING ∨ st = .STOPPED
  then [Act.scancel job_id] else []

/-- State of a `LocalTunnel` instance from
`src/slurm_job_tunnel/run_tunnel.py`: `local_tunnel_entry` is the host name
held by `_local_tunnel_entry` (`none` until `thread_target` sets it), and
`thread_alive` is `none` until `create()` sets `_thread`, afterwards the
value of `is_alive()`. -/
structure LocalTunnelState where
  local_tunnel_entry : Option (List Char)
  thread_alive : Option Bool
  deriving DecidableEq

/-- `LocalTunnel.is_running` of `src/slurm_job_tunnel/run_tunnel.py`
lines 195-197: the thread exists and is alive. -/
def LocalTunnel_is_running (st : LocalTunnelState) : Bool :=
  match st.thread_alive with
  | none => false
  | some alive => alive

/-- Side effects of `LocalTunnel.cleanup`. -/
inductive LTAction
  | removeEntry (host : List Char)
  | setStopEvent
  | joinThread
  deriving DecidableEq

/-- `LocalTunnel.cleanup` of `src/slurm_job_tunnel/run_tunnel.py`
lines 235-243: it first evaluates `self.local_tunnel_entry.host`, and that
property (lines 170-175) raises `ValueError("Local tunnel entry is not
set")` when `_local_tunnel_entry is None`; otherwise the config entry is
removed, and if the thread is running the stop event is set and the thread
joined. -/
def LocalTunnel_cleanup (st : LocalTunnelState) :
    Except PyErr (List LTAction) :=
  match st.local_tunnel_entry with
  | none => .error (.valueError "Local tunnel entry is not set".data)
  | some h =>
    if !LocalTunnel_is_running st then .ok [.removeEntry h]
    else .ok [.removeEntry h, .setStopEvent, .joinThread]

/-- `JobTunnel.cancel_slurm_job` of `src/slurm_job_tunnel/run_tunnel.py`
lines 94-95: `self.job.cancel()` with no guard — when `self.job` is still
`None` (no submission happened), attribute lookup on `None` raises
`AttributeError`.  A submitted job carries its id and current scheduler
status, and its `cancel` is the external `SlurmJob.cancel`. -/
def rt_cancel_slurm_job (job : Option (Nat × JobState)) :
    Except PyErr (List Act) :=
  match job with
  | none => .error (.attributeError "NoneType object has no attribute cancel".data)
  | some (jid, st) => .ok (SlurmJob_cancel jid st)

/-- `cleanup` of `src/slurm_job_tunnel/run_tunnel.py` lines 246-267.
`job_tunnel` has no default and a dataclass instance is always truthy, so
`cancel_slurm_job` is always invoked; then the tunnel config entry is
removed when both `ssh_config` and `tunnel_entry` are set; then
`local_tunnel.cleanup()` runs when a local tunnel was passed (its own
exceptions propagate); finally `sys.exit(0)` when `exit` is true. -/
def rt_cleanup (job : Option (Nat × JobState)) (ssh_config : Bool)
    (tunnel_entry : Option (List Char)) (local_tunnel : Option LocalTunnelState)
    (ex : Bool) : Except PyErr (List Act) :=
  match rt_cancel_slurm_job job with
  | .error e => .error e
  | .ok cancelActs =>
    let acts := cancelActs ++
      (match ssh_config, tunnel_entry with
       | true, some h => [Act.removeEntry h]
       | _, _ => [])
    match local_tunnel with
    | none => .ok (acts ++ if ex then [Act.exitProc] else [])
    | some lt =>
      match LocalTunnel_cleanup lt with
      | .error e => .error e
      | .ok _ =>
        .ok (acts ++ [Act.localTunnelCleanup] ++
          if ex then [Act.exitProc] else [])

/-- Observable events of the orchestrator's active-tunnel tail. -/
inductive PhaseEvent
  | sleepFor (seconds : Int)
  | warnOneMinute
  | teardown
  deriving DecidableEq

/-- Python `time.sleep(d)`: a negative duration raises
`ValueError("sleep length must be non-negative")`. -/
def time_sleep (d : Int) : Except PyErr Unit :=
  if d < 0 then .error (.valueError "sleep length must be non-negative".data)
  else .ok ()

/-- The `TUNNEL_ACTIVE` tail of `run_tunnel`
(`src/slurm_job_tunnel/run_tunnel.py` lines 377-389):
`time.sleep((termination_time - datetime.now()).total_seconds() - 60)`, then
the one-minute warning, then the teardown `cleanup(...)` call.  Times are in
whole seconds; a `ValueError` from the sleep propagates, so no warning and
no teardown happen.  (The `src/job_tunnel.py` variant, lines 400-411,
additionally sleeps 60 seconds between the warning and the teardown.) -/
def tunnel_active_tail (termination_time now : Int) :
    Except PyErr (List PhaseEvent) :=
  let d := termination_time - now - 60
  match time_sleep d with
  | .error e => .error e
  | .ok _ => .ok [.sleepFor d, .warnOneMinute, .teardown]

/-- Parse of `datetime.strptime(s, "%Y-%m-%d %H:%M:%S")` on the zero-padded
timestamps the job script writes: four-digit year, two-digit month, day,
hour, minute, second, with in-range calendar fields; `none` is the
`ValueError` raised on a mismatch. -/
def strptime? (s : List Char) : Option (Nat × Nat × Nat × Nat × Nat × Nat) :=
  match s with
  | [y1, y2, y3, y4, '-', m1, m2, '-', d1, d2, ' ',
     h1, h2, ':', n1, n2, ':', s1, s2] =>
    if [y1, y2, y3, y4, m1, m2, d1, d2, h1, h2, n1, n2, s1, s2].all
        Char.isDigit then
      let yr := natOfDigits [y1, y2, y3, y4]
      let mo := natOfDigits [m1, m2]
      let dy := natOfDigits [d1, d2]
      let hr := natOfDigits [h1, h2]
      let mi := natOfDigits [n1, n2]
      let sc := natOfDigits [s1, s2]
      if 1 ≤ mo ∧ mo ≤ 12 ∧ 1 ≤ dy ∧ dy ≤ 31 ∧ hr ≤ 23 ∧ mi ≤ 59 ∧ sc ≤ 59
      then some (yr, mo, dy, hr, mi, sc) else none
    else none
  | _ => none

/-- The post-init attributes of a `JobTunnel` instance that
`get_tunnel_info` assigns (`None` until assigned). -/
structure JTFields where
  port : Option Int
  node : Option (List Char)
  termination_time : Option (Nat × Nat × Nat × Nat × Nat × Nat)
  deriving DecidableEq

/-- Python's `next(transform(line) for line in lines if marker in line)`
pattern of `get_tunnel_info`: the first line containing the marker, or
`none` for `StopIteration`. -/
def nextMatch (marker : List Char) (lines : List (List Char)) :
    Option (List Char) :=
  lines.find? (fun l => hasSub marker l)

/-- `JobTunnel.get_tunnel_info` of `src/slurm_job_tunnel/run_tunnel.py`
lines 121-141 (identically `src/job_tunnel.py` lines 201-221 but for the
watcher deadline).  `running` is `self.is_running`; `polls` feeds the
watcher; `st` holds the instance fields at entry, and the returned pair is
(raised exception or returned triple, fields at exit) — on an exception the
fields keep whatever had been assigned before the raise, exactly as in
Python.  Evaluation order mirrors the source: the guard, the watcher, the
three `next(...)` extractions with their `split(...)[1]` accesses, then
`self.port = int(port)`, `self.node = node`,
`self.termination_time = datetime.strptime(...)`. -/
def get_tunnel_info (running : Bool) (polls : List (List (List Char)))
    (st : JTFields) :
    Except PyErr (Int × List Char × (Nat × Nat × Nat × Nat × Nat × Nat)) ×
      JTFields :=
  if !running then (.error (.valueError "Job is not running".data), st)
  else
    match watch_output_for_text [PORTmark, NODEmark, CLOSEmark] polls with
    | .error m => (.error (.timeoutError m), st)
    | .ok output_lines =>
      match nextMatch PORTmark output_lines with
      | none => (.error .stopIteration, st)
      | some portLine =>
        match (pySplit "=".data portLine).get? 1 with
        | none => (.error .indexError, st)
        | some portStr =>
          match nextMatch NODEmark output_lines with
          | none => (.error .stopIteration, st)
          | some nodeLine =>
            match (pySplit "=".data nodeLine).get? 1 with
            | none => (.error .indexError, st)
            | some nodeStr =>
              match nextMatch CLOSEmark output_lines with
              | none => (.error .stopIteration, st)
              | some closeLine =>
                match (pySplit "at: ".data closeLine).get? 1 with
                | none => (.error .indexError, st)
                | some ttStr =>
                  match pyInt? portStr with
                  | none =>
                    (.error (.valueError ("invalid literal for int: ".data
                      ++ portStr)), st)
                  | some p =>
                    let st1 := { st with port := some p }
                    let st2 := { st1 with node := some nodeStr }
                    match strptime? ttStr with
                    | none =>
                      (.error (.valueError ("time data does not match format: ".data
                        ++ ttStr)), st2)
                    | some tt =>
                      (.ok (p, nodeStr, tt),
                        { st2 with termination_time := some tt })

/-- Position of each teardown step in the order `cleanup` of
`src/job_tunnel.py` performs them: cancel the job, kill IDE processes,
remove the config entry, exit. -/
def teardownRank : Act → Nat
  | .scancel _ => 0
  | .killCodeProcesses => 1
  | .removeEntry _ => 2
  | .localTunnelCleanup => 3
  | .exitProc => 4

/-! Helper lemmas about the Python string primitives. -/

theorem matchesAt_append_self (w b : List Char) :
    matchesAt w (w ++ b) = true := by
  induction w with
  | nil => rfl
  | cons c cs ih => simp [matchesAt, ih]

theorem hasSub_cons_of {w l : List Char} (c : Char) (h : hasSub w l = true) :
    hasSub w (c :: l) = true := by
  simp [hasSub, h]

theorem hasSub_self_append (w b : List Char) : hasSub w (w ++ b) = true := by
  cases w with
  | nil =>
    cases b with
    | nil => rfl
    | cons c cs => simp [hasSub, matchesAt]
  | cons c cs =>
    have hm := matchesAt_append_self (c :: cs) b
    simp [hasSub, List.cons_append] at hm ⊢
    exact Or.inl hm

theorem hasSub_append_right (w b : List Char) :
    ∀ a : List Char, hasSub w (a ++ (w ++ b)) = true := by
  intro a
  induction a with
  | nil => simpa using hasSub_self_append w b
  | cons c cs ih => exact hasSub_cons_of c ih

theorem joinSep_mem_decomp (sep x : List Char) :
    ∀ xs : List (List Char), x ∈ xs →
      ∃ a b, joinSep sep xs = a ++ (x ++ b) := by
  intro xs
  induction xs with
  | nil => intro h; exact absurd h (List.not_mem_nil x)
  | cons y ys ih =>
    intro hmem
    rcases List.mem_cons.mp hmem with rfl | hmem'
    · cases ys with
      | nil => exact ⟨[], [], by simp [joinSep]⟩
      | cons z zs =>
        exact ⟨[], sep ++ joinSep sep (z :: zs), by simp [joinSep]⟩
    · cases ys with
      | nil => exact absurd hmem' (List.not_mem_nil x)
      | cons z zs =>
        obtain ⟨a, b, hab⟩ := ih hmem'
        exact ⟨y ++ sep ++ a, b, by simp [joinSep, hab, List.append_assoc]⟩

theorem timeoutMsg_decomp {w : List Char} {ws : List (List Char)}
    (hw : w ∈ ws) :
    ∃ a b, timeoutMsg ws = a ++ (w ++ b) := by
  obtain ⟨a, b, hab⟩ :=
    joinSep_mem_decomp ", ".data (pyQuote w) (ws.map pyQuote)
      (List.mem_map_of_mem pyQuote hw)
  refine ⟨"Timed out waiting for ".data ++ ('[' :: (a ++ ['\''])),
    '\'' :: (b ++ [']']), ?_⟩
  simp [timeoutMsg, pyListRepr, hab, pyQuote, List.append_assoc]

theorem watch_error_msg (ws : List (List Char)) :
    ∀ (polls : List (List (List Char))) (m : List Char),
      watch_output_for_text ws polls = .error m → m = timeoutMsg ws := by
  intro polls
  induction polls with
  | nil =>
    intro m h
    simp only [watch_output_for_text] at h
    exact (Except.error.inj h).symm
  | cons p ps ih =>
    intro m h
    simp only [watch_output_for_text] at h
    rcases hscan : scanLines ws p [] with _ | found
    · rw [hscan] at h
      exact ih m h
    · rw [hscan] at h
      simp at h

theorem wsSplitGo_dropWhile :
    ∀ s : List Char, wsSplitGo (s.dropWhile isWs) [] = wsSplitGo s [] := by
  intro s
  induction s with
  | nil => rfl
  | cons c t ih =>
    by_cases hc : isWs c = true
    · rw [List.dropWhile_cons_of_pos hc, ih]
      simp [wsSplitGo, hc]
    · rw [List.dropWhile_cons_of_neg hc]

theorem wsSplitGo_all_ws :
    ∀ t : List Char, (∀ c ∈ t, isWs c = true) →
      ∀ acc, wsSplitGo t acc = if acc.isEmpty then [] else [acc.reverse] := by
  intro t
  induction t with
  | nil => intro _ acc; rfl
  | cons c u ih =>
    intro h acc
    have hc : isWs c = true := h c (List.mem_cons_self c u)
    have hu : ∀ d ∈ u, isWs d = true := fun d hd => h d (List.mem_cons_of_mem c hd)
    by_cases ha : acc.isEmpty <;> simp [wsSplitGo, hc, ha, ih hu]

theorem wsSplitGo_append_ws (t : List Char) (ht : ∀ c ∈ t, isWs c = true) :
    ∀ (s acc : List Char), wsSplitGo (s ++ t) acc = wsSplitGo s acc := by
  intro s
  induction s with
  | nil =>
    intro acc
    rw [List.nil_append, wsSplitGo_all_ws t ht acc]
    rfl
  | cons c u ih =>
    intro acc
    by_cases hc : isWs c = true <;> by_cases ha : acc.isEmpty <;>
      simp [wsSplitGo, hc, ha, ih]

theorem mem_takeWhile_ws {c : Char} {l : List Char}
    (h : c ∈ l.takeWhile isWs) : isWs c = true :=
  List.mem_takeWhile_imp h

theorem dropWhile_eq_strip_append (s : List Char) :
    ∃ t, (∀ c ∈ t, isWs c = true) ∧ s.dropWhile isWs = pyStrip s ++ t := by
  refine ⟨((s.dropWhile isWs).reverse.takeWhile isWs).reverse, ?_, ?_⟩
  · intro c hc
    rw [List.mem_reverse] at hc
    exact mem_takeWhile_ws hc
  · rw [pyStrip, ← List.reverse_append, List.takeWhile_append_dropWhile,
      List.reverse_reverse]

theorem pyWsSplit_pyStrip (s : List Char) :
    pyWsSplit (pyStrip s) = pyWsSplit s := by
  obtain ⟨t, ht, hdecomp⟩ := dropWhile_eq_strip_append s
  show wsSplitGo (pyStrip s) [] = wsSplitGo s []
  rw [← wsSplitGo_dropWhile s, hdecomp, wsSplitGo_append_ws t ht]

theorem not_ws_of_digit {c : Char} (h : c.isDigit = true) : isWs c = false := by
  cases hw : isWs c
  · rfl
  · exfalso
    rw [isWs] at hw
    simp only [Bool.or_eq_true, decide_eq_true_eq] at hw
    rcases hw with ((((h1 | h1) | h1) | h1) | h1) | h1 <;> subst h1 <;>
      exact absurd h (by decide)

theorem dropWhile_ws_eq_self (l : List Char) (h : ∀ c ∈ l, isWs c = false) :
    l.dropWhile isWs = l := by
  cases l with
  | nil => rfl
  | cons c u =>
    have hc := h c (List.mem_cons_self c u)
    rw [List.dropWhile_cons_of_neg (by simp [hc])]

theorem pyStrip_eq_self (l : List Char) (h : ∀ c ∈ l, isWs c = false) :
    pyStrip l = l := by
  rw [pyStrip, dropWhile_ws_eq_self l h,
    dropWhile_ws_eq_self l.reverse (fun c hc => h c (List.mem_reverse.mp hc)),
    List.reverse_reverse]

theorem pyInt?_all_digits (ds : List Char) (hne : ds ≠ [])
    (hd : ds.all Char.isDigit = true) :
    pyInt? ds = some ((natOfDigits ds : Nat) : Int) := by
  have hnw : ∀ c ∈ ds, isWs c = false := by
    intro c hc
    exact not_ws_of_digit (by
      rw [List.all_eq_true] at hd
      exact hd c hc)
  have hstrip : pyStrip ds = ds := pyStrip_eq_self ds hnw
  rcases ds with _ | ⟨c, rest⟩
  · exact absurd rfl hne
  · have hc : c.isDigit = true := by
      rw [List.all_eq_true] at hd
      exact hd c (List.mem_cons_self c rest)
    have hcm : ¬ (c = '-') := by
      intro h1; subst h1; exact absurd hc (by decide)
    have hcp : ¬ (c = '+') := by
      intro h1; subst h1; exact absurd hc (by decide)
    simp only [pyInt?, hstrip, if_neg hcm, if_neg hcp, digitsVal?]
    simp [hd]

/-! Claim theorems. -/

/-- Claim C1: the output watcher was claimed to return only when every
requested marker has at least one matching line — repeated matches of one
marker must not substitute for a missing match of another.  The code
violates this: its scan counts matching lines against `len(watch_texts)`,
so with watched texts PORT=, NODE= and the close-at marker, a file whose
lines are PORT=1111, PORT=2222, NODE=gpu07 makes the scan return those three
lines although the close-at marker matches none of them. -/
theorem c1_watch_returns_with_unmatched_marker :
    scanLines [PORTmark, NODEmark, CLOSEmark]
      ["PORT=1111".data, "PORT=2222".data, "NODE=gpu07".data] [] =
      some ["PORT=1111".data, "PORT=2222".data, "NODE=gpu07".data] ∧
    (∀ l ∈ ["PORT=1111".data, "PORT=2222".data, "NODE=gpu07".data],
      hasSub CLOSEmark l = false) := by
  constructor
  · rfl
  · decide

/-- Claim C2: teardown was claimed idempotent and safe with partly-populated
session state (nil job).  In `run_tunnel.py`'s `cleanup` the call
`job_tunnel.cancel_slurm_job()` runs unguarded `self.job.cancel()`, so with
`job = None` (no submission yet — the state the SIGINT handler installed
before `submit_slurm_job` can reach) cleanup raises `AttributeError` instead
of returning; with a submitted job already COMPLETED, cleanup issues no
duplicate `scancel` (second conjunct). -/
theorem c2_cleanup_nil_job_raises :
    rt_cleanup none true (some "hpc-login-job".data) none false =
      .error (.attributeError "NoneType object has no attribute cancel".data) ∧
    rt_cleanup (some (4821, JobState.COMPLETED)) true
      (some "hpc-login-job".data) none false =
      .ok [Act.removeEntry "hpc-login-job".data] :=
  ⟨rfl, rfl⟩

/-- Claim C3, counterexample: with expiry 100 s and now 90 s the computed
duration 100 − 90 − 60 = −50 is negative, and the active-tunnel tail fails
with `ValueError` from `time.sleep` instead of proceeding immediately to
closing as claimed. -/
theorem c3_counterexample_negative_sleep_raises :
    tunnel_active_tail 100 90 =
      .error (.valueError "sleep length must be non-negative".data) :=
  rfl

/-- Claim C3 as amended: the orchestrator computes
`sleepDuration = expiry − now − 60`; when the duration is nonnegative it
sleeps exactly that long, emits the final one-minute warning, and proceeds
to teardown; when it is negative the `time.sleep` call raises `ValueError`
(so neither the warning nor the teardown runs). -/
theorem c3_amended_active_tail (termination_time now : Int)
    (h : 0 ≤ termination_time - now - 60) :
    tunnel_active_tail termination_time now =
      .ok [.sleepFor (termination_time - now - 60), .warnOneMinute,
        .teardown] := by
  have h' : ¬ (termination_time - now - 60 < 0) := by omega
  simp [tunnel_active_tail, time_sleep, h']

/-- Witness for `c3_amended_active_tail` at expiry 3700 s, now 0 s. -/
theorem c3_amended_active_tail_witness :
    tunnel_active_tail 3700 0 =
      .ok [.sleepFor 3640, .warnOneMinute, .teardown] := by
  have h := c3_amended_active_tail 3700 0 (by norm_num)
  have e : (3700 : Int) - 0 - 60 = 3640 := by norm_num
  rw [e] at h
  exact h

/-- Claim C6, counterexample: `job_status` was claimed to map empty scheduler
output to a COMPLETED enum value; the code returns the raw stripped stdout,
so empty output yields the empty string, which is not the string
"COMPLETED" (and no enum exists in this repository — the mapping lives in
the external `slurm-job-util` package). -/
theorem c6_counterexample_empty_status :
    job_status [] = [] ∧ job_status [] ≠ "COMPLETED".data := by
  constructor
  · rfl
  · decide

/-- Claim C6 as amended: `job_status` returns the scheduler's one-line state
token verbatim (whitespace-stripped stdout of the `squeue` query); empty
output — the job having left the queue — yields the empty string without
raising, and downstream `cancel_slurm_job` treats that value as
non-cancellable, so it behaves like a terminal state; but no COMPLETED
value is produced. -/
theorem c6_amended_status_raw_token :
    job_status " RUNNING\n".data = "RUNNING".data ∧
    job_status "".data = [] ∧
    jt_cancel_slurm_job 4821 (job_status "".data) = [] := by
  refine ⟨by decide, rfl, ?_⟩
  simp [jt_cancel_slurm_job, job_status]
  decide

/-- Claim C4: whenever the watcher's deadline elapses (the polls are
exhausted) before every requested marker has matched, the call fails with a
timeout error, and the error message names each still-unmatched marker (the
f-string interpolates the whole `watch_texts` list, so every requested
marker — in particular every unmatched one — occurs in the message). -/
theorem c4_timeout_error_names_markers (watch_texts : List (List Char))
    (polls : List (List (List Char))) (m w : List Char)
    (herr : watch_output_for_text watch_texts polls = .error m)
    (hw : w ∈ watch_texts)
    (_hunmatched : ∀ p ∈ polls, ∀ l ∈ p, hasSub w l = false) :
    hasSub w m = true := by
  have hm : m = timeoutMsg watch_texts := watch_error_msg _ _ _ herr
  obtain ⟨a, b, hab⟩ := timeoutMsg_decomp hw
  rw [hm, hab]
  exact hasSub_append_right w b a

/-- Witness for `c4_timeout_error_names_markers`: markers PORT= and NODE=,
one poll of a file holding only `PORT=51000`, so NODE= never matches; the
watcher times out and the message contains `NODE=`. -/
theorem c4_timeout_error_names_markers_witness :
    watch_output_for_text [PORTmark, NODEmark] [["PORT=51000".data]] =
      .error (timeoutMsg [PORTmark, NODEmark]) ∧
    hasSub NODEmark (timeoutMsg [PORTmark, NODEmark]) = true := by
  refine ⟨rfl, ?_⟩
  exact c4_timeout_error_names_markers [PORTmark, NODEmark]
    [["PORT=51000".data]] (timeoutMsg [PORTmark, NODEmark]) NODEmark
    rfl (by decide) (by decide)

/-- Claim C5, counterexample: `submit` was claimed to fail whenever the
expected submitted-job pattern is absent from stdout.  With exit code 0 and
stdout `random text 42` — which contains no submitted-job pattern — submit
succeeds and returns 42. -/
theorem c5_counterexample_no_pattern_check :
    submit_slurm_job 0 "random text 42\n".data [] = .ok 42 ∧
    hasSub "Submitted".data "random text 42\n".data = false ∧
    hasSub "submitted".data "random text 42\n".data = false := by
  refine ⟨rfl, by decide, by decide⟩

/-- Claim C5 as amended: `submit` fails when the remote exit code is
non-zero (with the stderr-bearing `ValueError`); it performs no
submitted-job pattern check; and with exit code 0 and a stdout whose last
whitespace-delimited token is a non-empty digit string, it returns exactly
that token's integer value as the job id. -/
theorem c5_amended_submit :
    (∀ (rc : Int) (stdout stderr : List Char), rc ≠ 0 →
      submit_slurm_job rc stdout stderr =
        .error (.valueError ("Failed to submit SLURM job: ".data ++ stderr))) ∧
    (∀ (stdout stderr ds : List Char),
      (pyWsSplit stdout).getLast? = some ds →
      ds.all Char.isDigit = true → ds ≠ [] →
      submit_slurm_job 0 stdout stderr = .ok ((natOfDigits ds : Nat) : Int)) := by
  constructor
  · intro rc o e h
    simp [submit_slurm_job, h]
  · intro o e ds hlast hdig hne
    have h0 : ¬ ((0 : Int) ≠ 0) := by simp
    simp only [submit_slurm_job, if_neg h0, pyWsSplit_pyStrip, hlast,
      pyInt?_all_digits ds hne hdig]

/-- Witness for `c5_amended_submit`: a failing submission with stderr kept
in the message, and the canonical success `Submitted batch job 4821`. -/
theorem c5_amended_submit_witness :
    submit_slurm_job 1 "".data "boom".data =
      .error (.valueError ("Failed to submit SLURM job: ".data
        ++ "boom".data)) ∧
    submit_slurm_job 0 "Submitted batch job 4821\n".data [] = .ok 4821 := by
  constructor
  · exact c5_amended_submit.1 1 "".data "boom".data (by norm_num)
  · have h := c5_amended_submit.2 "Submitted batch job 4821\n".data []
      "4821".data (by decide) (by decide) (by decide)
    exact h

/-- Claim C7, counterexample: teardown in `src/job_tunnel.py` was claimed to
remove config entries before terminating IDE processes; the code does the
opposite — in a full teardown the kill-IDE-processes step comes at index 1,
before the config-entry removal at index 2. -/
theorem c7_counterexample_kill_before_config :
    jt_cleanup (some (4821, "RUNNING".data)) [7] true
      (some "hpc-login-job".data) false =
      [Act.scancel 4821, Act.killCodeProcesses,
        Act.removeEntry "hpc-login-job".data] ∧
    (jt_cleanup (some (4821, "RUNNING".data)) [7] true
      (some "hpc-login-job".data) false).indexOf Act.killCodeProcesses <
    (jt_cleanup (some (4821, "RUNNING".data)) [7] true
      (some "hpc-login-job".data) false).indexOf
        (Act.removeEntry "hpc-login-job".data) := by
  refine ⟨rfl, by decide⟩

/-- Claim C7 as amended: whatever the session state, teardown in
`src/job_tunnel.py` performs its steps in the fixed order: job cancellation
first, then termination of tracked IDE processes, then removal of the
registered config entry, then exit — so a config removal never precedes the
cancellation attempt, but process cleanup precedes config cleanup (not the
other way round as claimed). -/
theorem c7_amended_cleanup_order (job_tunnel : Option (Nat × List Char))
    (prev_code_pids : List Nat) (ssh_config : Bool)
    (tunnel_entry : Option (List Char)) (ex : Bool) :
    (jt_cleanup job_tunnel prev_code_pids ssh_config tunnel_entry ex).Pairwise
      (fun a b => teardownRank a < teardownRank b) := by
  rcases job_tunnel with _ | ⟨jid, st⟩ <;>
    cases ssh_config <;> rcases tunnel_entry with _ | h <;> cases ex <;>
    simp only [jt_cleanup, jt_cancel_slurm_job] <;>
    split_ifs <;>
    simp [List.pairwise_cons, teardownRank]

/-- Claim C8, counterexample: `LocalTunnel.cleanup` was claimed safe on an
instance on which `create()` was never called; in fact the
`local_tunnel_entry` property raises `ValueError("Local tunnel entry is not
set")` on the fresh state (entry unset, no thread), so cleanup raises. -/
theorem c8_counterexample_fresh_cleanup_raises :
    LocalTunnel_cleanup ⟨none, none⟩ =
      .error (.valueError "Local tunnel entry is not set".data) :=
  rfl

/-- Claim C8 as amended: once `create()` has completed (the config entry is
registered, so `_local_tunnel_entry` is set), `cleanup` does not raise: it
removes the local-forward config entry, and when the forwarding thread is
still running it also signals the stop event and joins the thread; but on an
instance where `create()` was never called it raises `ValueError` instead of
being a no-op. -/
theorem c8_amended_cleanup_after_create (st : LocalTunnelState)
    (h : List Char) (hset : st.local_tunnel_entry = some h) :
    ∃ acts, LocalTunnel_cleanup st = .ok acts ∧
      acts.head? = some (.removeEntry h) ∧
      (LocalTunnel_is_running st = true →
        LTAction.setStopEvent ∈ acts ∧ LTAction.joinThread ∈ acts) := by
  by_cases hr : LocalTunnel_is_running st = true
  · refine ⟨[.removeEntry h, .setStopEvent, .joinThread], ?_, rfl, ?_⟩
    · simp [LocalTunnel_cleanup, hset, hr]
    · intro _
      exact ⟨by simp, by simp⟩
  · have hr' : LocalTunnel_is_running st = false := by
      simpa using hr
    refine ⟨[.removeEntry h], ?_, rfl, ?_⟩
    · simp [LocalTunnel_cleanup, hset, hr']
    · intro hcon
      rw [hr'] at hcon
      cases hcon

/-- Witness for `c8_amended_cleanup_after_create`: a created local tunnel
with a live forwarding thread. -/
theorem c8_amended_cleanup_after_create_witness :
    ∃ acts,
      LocalTunnel_cleanup ⟨some "hpc-login-job-port-forward".data, some true⟩ =
        .ok acts ∧
      acts.head? = some (.removeEntry "hpc-login-job-port-forward".data) ∧
      (LocalTunnel_is_running
          ⟨some "hpc-login-job-port-forward".data, some true⟩ = true →
        LTAction.setStopEvent ∈ acts ∧ LTAction.joinThread ∈ acts) :=
  c8_amended_cleanup_after_create
    ⟨some "hpc-login-job-port-forward".data, some true⟩
    "hpc-login-job-port-forward".data rfl

/-- Claim C9: with the output file holding PORT=1111, then PORT=2222, then
the remaining markers (the two PORT= lines precede the close-at marker, as
in the claimed scenario), `get_tunnel_info` does not extract port 1111 — the
watcher's counting bug returns the first three lines without the close-at
line, and the close-at extraction raises `StopIteration`, leaving every
field unset (first conjunct).  Only when the close-at marker precedes the
second PORT= line does the first-match rule give port 1111 as claimed
(second conjunct). -/
theorem c9_duplicate_port_lines :
    (get_tunnel_info true
      [["PORT=1111".data, "PORT=2222".data, "NODE=gpu07".data,
        "This tunnel will close at: 2025-01-01 12:00:00".data]]
      ⟨none, none, none⟩) = (.error .stopIteration, ⟨none, none, none⟩) ∧
    (get_tunnel_info true
      [["PORT=1111".data, "NODE=gpu07".data,
        "This tunnel will close at: 2025-01-01 12:00:00".data,
        "PORT=2222".data]]
      ⟨none, none, none⟩) =
      (.ok (1111, "gpu07".data, (2025, 1, 1, 12, 0, 0)),
        ⟨some 1111, some "gpu07".data, some (2025, 1, 1, 12, 0, 0)⟩) :=
  ⟨rfl, rfl⟩

/-- Claim C10: whenever the job status is not RUNNING, `get_tunnel_info`
raises `ValueError("Job is not running")` before any output watching (the
result does not depend on the polls) and leaves the port, node and
termination-time fields exactly as they were. -/
theorem c10_get_tunnel_info_requires_running (status : List Char)
    (polls : List (List (List Char))) (st : JTFields)
    (h : status ≠ "RUNNING".data) :
    get_tunnel_info (job_running status) polls st =
      (.error (.valueError "Job is not running".data), st) := by
  have hb : job_running status = false := by
    simp [job_running]
    exact h
  simp [get_tunnel_info, hb]

/-- Witness for `c10_get_tunnel_info_requires_running`: a PENDING job with
the watcher input present and all fields still `None`. -/
theorem c10_get_tunnel_info_requires_running_witness :
    get_tunnel_info (job_running "PENDING".data)
      [["PORT=1111".data]] ⟨none, none, none⟩ =
      (.error (.valueError "Job is not running".data),
        ⟨none, none, none⟩) :=
  c10_get_tunnel_info_requires_running "PENDING".data [["PORT=1111".data]]
    ⟨none, none, none⟩ (by decide)
